import Mathlib

/-!
Verification of the job-aggregation pipeline of `job-new-agent`.

The repository is a set of JavaScript HTTP endpoints that fetch job postings
from two providers (SerpAPI, JSearch), deduplicate them, cache the per-provider
results, summarize via an LLM collaborator, and deliver the result as a JSON
response or an HTML e-mail report.

This file shallowly embeds the pipeline's pure core:
* JavaScript string primitives are modelled on their ASCII fragment
  (`toLowerCase`, `trim`, the regex classes `\w` and `\s`);
* a missing JavaScript value (`undefined`/`null`) is modelled as `Option.none`,
  and JavaScript truthiness of string values as "present and non-empty";
* external platform collaborators (`encodeURIComponent`,
  `Date.toLocaleDateString`, `marked.parse`, the mail transport, the LLM) are
  taken as function parameters, so theorems quantify over their behaviour;
* time is an integer count of milliseconds.

Source files referenced below:
* `src/api/job-agent.js` (main aggregation endpoint, Supabase-backed cache),
* `src/pages/api/send-job-report.js` (delivery endpoint and HTML renderer),
* `src/unnamed/part_000` (aggregation variant with an in-memory cache),
* `src/unnamed/part_001` (legacy aggregation variant).
-/

set_option autoImplicit false

namespace JobAgent

/-! ### JavaScript string primitives (ASCII fragment) -/

/-- ASCII fragment of JavaScript `String.prototype.toLowerCase`. -/
def jsToLower (c : Char) : Char := c.toLower

/-- The whitespace characters recognised by `trim` and by the regex class
`\s` (ASCII fragment of the JavaScript classes). -/
def isWsChar (c : Char) : Bool := c == ' ' || c == '\t' || c == '\n' || c == '\r'

/-- The regex word class `\w`, i.e. `[A-Za-z0-9_]`. -/
def isWordChar (c : Char) : Bool := c.isAlpha || c.isDigit || c == '_'

/-- JavaScript `String.prototype.trim` on a character list: strip leading and
trailing whitespace. -/
def trimChars (l : List Char) : List Char :=
  ((l.dropWhile isWsChar).reverse.dropWhile isWsChar).reverse

/-- `str.toLowerCase().trim().replace(/[^\w\s]/g, '')` on a character list
(`src/api/job-agent.js:220`). -/
def normChars (l : List Char) : List Char :=
  (trimChars (l.map jsToLower)).filter (fun c => isWordChar c || isWsChar c)

/-- `src/api/job-agent.js:220`:
`const normalizeString = (str) => str?.toLowerCase().trim().replace(/[^\w\s]/g, '') || '';`
`none` models a missing (`undefined`) field; the trailing `|| ''` maps an
`undefined` (and an already-empty) result to `""`. -/
def normalizeString : Option String → String
  | none => ""
  | some s => String.mk (normChars s.data)

/-! ### Postings and deduplication -/

/-- A job posting as built by the adapters' field mappings.  `none` models a
JavaScript `undefined` field (a field the mapping did not set, or set from a
missing provider value without a default). -/
structure Posting where
  id : Option String := none
  title : Option String := none
  company : Option String := none
  location : Option String := none
  date : Option String := none
  source : Option String := none
  link : Option String := none
  description : Option String := none
  salary : Option String := none
deriving Repr, DecidableEq

/-- The deduplication key of `src/api/job-agent.js:221`:
`const key = normalizeString(job.title) + "_" + normalizeString(job.company)` -/
def jobKey (j : Posting) : String :=
  normalizeString j.title ++ "_" ++ normalizeString j.company

/-- The filter of `src/api/job-agent.js:217-229` with the `seen` map made
explicit (only key membership in the map is consulted). -/
def dedupAux : List String → List Posting → List Posting
  | _, [] => []
  | seen, j :: rest =>
    if jobKey j ∈ seen then dedupAux seen rest
    else j :: dedupAux (jobKey j :: seen) rest

/-- `const finalJobs = allJobsRaw.filter(...)` (`src/api/job-agent.js:218`),
starting from an empty `seen` map. -/
def dedup (l : List Posting) : List Posting := dedupAux [] l

/-- Spec-side deduplication, written from the specification's words
(spec §8: "retains the first occurrence (by original concatenation order) of
each distinct normalized (title, company) key and drops all subsequent
occurrences"): keep the head posting, then recursively deduplicate the tail
with every posting of an identical key dropped. -/
def firstOccurrences : List Posting → List Posting
  | [] => []
  | j :: rest =>
      j :: firstOccurrences (rest.filter (fun x => jobKey x != jobKey j))
termination_by l => l.length
decreasing_by
  simp only [List.length_cons]
  exact Nat.lt_succ_of_le (List.length_filter_le _ _)

/-- `stats.duplicatesRemoved` of the final response
(`src/api/job-agent.js:361`): pre-dedup total minus deduplicated length. -/
def duplicatesRemovedStat (serpJobs jsearchJobs : List Posting) : Nat :=
  (serpJobs.length + jsearchJobs.length) - (dedup (serpJobs ++ jsearchJobs)).length

theorem dedupAux_eq_firstOccurrences (l : List Posting) : ∀ seen : List String,
    dedupAux seen l
      = firstOccurrences (l.filter (fun x => !(decide (jobKey x ∈ seen)))) := by
  induction l with
  | nil => intro seen; simp [dedupAux, firstOccurrences]
  | cons j rest ih =>
    intro seen
    by_cases h : jobKey j ∈ seen
    · simp [dedupAux, h, ih, List.filter_cons]
    · have hj : (!decide (jobKey j ∈ seen)) = true := by simp [h]
      rw [dedupAux, if_neg h, List.filter_cons, if_pos hj, firstOccurrences,
        ih, List.filter_filter]
      congr 2
      apply List.filter_congr
      intro x _
      by_cases hx : jobKey x = jobKey j <;>
        by_cases hs : jobKey x ∈ seen <;>
          simp [hx, hs, List.mem_cons]

/-- C1: deduplication of the concatenation of the two adapter outputs keeps
exactly the first posting of each distinct normalized `title_company` key, in
concatenation order, and the reported `duplicatesRemoved` is the pre-dedup
total `len(A) + len(B)` minus the deduplicated length. -/
theorem dedup_keeps_first_occurrences (A B : List Posting) :
    dedup (A ++ B) = firstOccurrences (A ++ B) ∧
    duplicatesRemovedStat A B
      = (A.length + B.length) - (dedup (A ++ B)).length := by
  refine ⟨?_, rfl⟩
  have h := dedupAux_eq_firstOccurrences (A ++ B) []
  simpa [dedup] using h

/-! ### C2: behaviour of `normalizeString` -/

theorem toNat_ofNat_of_valid {n : Nat} (h : n.isValidChar) :
    (Char.ofNat n).toNat = n := by
  rw [Char.ofNat, dif_pos h]
  rfl

theorem jsToLower_idem (c : Char) : jsToLower (jsToLower c) = jsToLower c := by
  unfold jsToLower Char.toLower
  by_cases h : c.toNat ≥ 65 ∧ c.toNat ≤ 90
  · rw [if_pos h]
    have hv : (c.toNat + 32).isValidChar := Or.inl (by omega)
    have ht : (Char.ofNat (c.toNat + 32)).toNat = c.toNat + 32 :=
      toNat_ofNat_of_valid hv
    rw [if_neg (by rw [ht]; omega)]
  · rw [if_neg h, if_neg h]

theorem mem_of_mem_trimChars {c : Char} {l : List Char} (h : c ∈ trimChars l) :
    c ∈ l := by
  unfold trimChars at h
  rw [List.mem_reverse] at h
  have h1 : c ∈ (l.dropWhile isWsChar).reverse :=
    (List.dropWhile_sublist _).mem h
  rw [List.mem_reverse] at h1
  exact (List.dropWhile_sublist _).mem h1

theorem mem_of_mem_normChars {c : Char} {l : List Char} (h : c ∈ normChars l) :
    ∃ d, d ∈ l ∧ c = jsToLower d := by
  unfold normChars at h
  have h1 : c ∈ trimChars (l.map jsToLower) := List.mem_of_mem_filter h
  have h2 : c ∈ l.map jsToLower := mem_of_mem_trimChars h1
  simpa [List.mem_map, eq_comm] using h2

theorem map_jsToLower_normChars (l : List Char) :
    (normChars l).map jsToLower = normChars l := by
  have hfix : ∀ c ∈ normChars l, jsToLower c = c := by
    intro c hc
    obtain ⟨d, _, rfl⟩ := mem_of_mem_normChars hc
    exact jsToLower_idem d
  calc (normChars l).map jsToLower
      = (normChars l).map id := List.map_congr_left hfix
    _ = normChars l := List.map_id _

theorem filter_wordspace_normChars (l : List Char) :
    (normChars l).filter (fun c => isWordChar c || isWsChar c) = normChars l := by
  unfold normChars
  rw [List.filter_filter]
  apply List.filter_congr
  intro a _
  exact Bool.and_self _

/-- C2 counterexample: `normalizeString` is not idempotent.  For the input
`"a ."`, stripping the final `'.'` (after `trim` has already run) exposes a
trailing space, so the first application yields `"a "` while the second yields
`"a"`. -/
theorem normalizeString_not_idempotent :
    normalizeString (some (normalizeString (some "a ."))) ≠
      normalizeString (some "a .") := by
  decide

/-- C2 (amended): `normalizeString` applied twice agrees with one application
on every string whose normalized form carries no leading or trailing
whitespace (i.e. is already `trim`-fixed), and the normalization is
case/whitespace/punctuation-insensitive in the claimed sense:
`normalize("Acme, Inc.") == normalize("acme inc")`. -/
theorem normalizeString_conditional_idempotent :
    (∀ s : String,
        trimChars (normalizeString (some s)).data = (normalizeString (some s)).data →
        normalizeString (some (normalizeString (some s))) = normalizeString (some s)) ∧
    normalizeString (some "Acme, Inc.") = normalizeString (some "acme inc") := by
  constructor
  · intro s h
    show String.mk (normChars (String.mk (normChars s.data)).data)
        = String.mk (normChars s.data)
    congr 1
    have h' : trimChars (normChars s.data) = normChars s.data := h
    calc normChars (normChars s.data)
        = (trimChars ((normChars s.data).map jsToLower)).filter
            (fun c => isWordChar c || isWsChar c) := rfl
      _ = (trimChars (normChars s.data)).filter
            (fun c => isWordChar c || isWsChar c) := by
            rw [map_jsToLower_normChars]
      _ = (normChars s.data).filter (fun c => isWordChar c || isWsChar c) := by
            rw [h']
      _ = normChars s.data := filter_wordspace_normChars s.data
  · decide

/-- Closed witness for the amended C2 theorem at the spec's own example
input. -/
theorem normalizeString_conditional_idempotent_witness :
    normalizeString (some (normalizeString (some "Acme, Inc."))) =
      normalizeString (some "Acme, Inc.") :=
  normalizeString_conditional_idempotent.1 "Acme, Inc." (by decide)

/-! ### JavaScript truthiness and fallback chains -/

/-- JavaScript truthiness of a possibly-missing string value: `undefined`,
`null` and `""` are falsy. -/
def jsTruthy : Option String → Bool
  | none => false
  | some s => s != ""

/-- JavaScript truthiness of a possibly-missing number: `undefined` and `0`
are falsy. -/
def jsTruthyInt : Option Int → Bool
  | none => false
  | some n => n != 0

/-- JavaScript `a || b` on possibly-missing string values. -/
def jsOr : Option String → Option String → Option String
  | none, b => b
  | some s, b => if s = "" then b else some s

/-- JavaScript `a || d` where the right operand is a string literal, so the
result is always a string. -/
def jsOrD : Option String → String → String
  | none, d => d
  | some s, d => if s = "" then d else s

/-- JavaScript string coercion of a possibly-missing value, as performed by
string concatenation (`undefined` prints as `"undefined"`). -/
def jsToString : Option String → String
  | none => "undefined"
  | some s => s

/-! ### Platform `encodeURIComponent` (modelled from its ECMAScript spec) -/

/-- Hexadecimal digit (upper case, as produced by `encodeURIComponent`). -/
def hexDigitChar (n : Nat) : Char :=
  if n < 10 then Char.ofNat (48 + n) else Char.ofNat (55 + n)

/-- UTF-8 bytes of a scalar value. -/
def utf8BytesOfChar (c : Char) : List Nat :=
  let n := c.toNat
  if n < 128 then [n]
  else if n < 2048 then [192 + n / 64, 128 + n % 64]
  else if n < 65536 then [224 + n / 4096, 128 + (n / 64) % 64, 128 + n % 64]
  else [240 + n / 262144, 128 + (n / 4096) % 64, 128 + (n / 64) % 64, 128 + n % 64]

/-- Characters `encodeURIComponent` leaves unescaped. -/
def uriUnreserved (c : Char) : Bool :=
  c.isAlpha || c.isDigit || c == '-' || c == '_' || c == '.' || c == '!' ||
  c == '~' || c == '*' || c == '\'' || c == '(' || c == ')'

/-- The ECMAScript builtin `encodeURIComponent` (percent-encoding of the
UTF-8 bytes of every character outside the unreserved set). -/
def encodeURIComponent (s : String) : String :=
  String.mk (s.data.flatMap fun c =>
    if uriUnreserved c then [c]
    else (utf8BytesOfChar c).flatMap fun b =>
      ['%', hexDigitChar (b / 16), hexDigitChar (b % 16)])

/-! ### Substring test (JavaScript `String.prototype.includes`) -/

def containsSubChars (needle : List Char) : List Char → Bool
  | [] => needle.isEmpty
  | c :: rest => needle.isPrefixOf (c :: rest) || containsSubChars needle rest

/-- `hay.includes(needle)`. -/
def containsSub (needle hay : String) : Bool :=
  containsSubChars needle.data hay.data

/-! ### Adapter field mappings -/

/-- Raw SerpAPI `jobs_results` entry, with the optional-chain projections
(`detected_extensions?.posted_at`, `apply_options?.[0]?.link`) flattened into
possibly-missing fields. -/
structure SerpRawJob where
  job_id : Option String := none
  title : Option String := none
  company_name : Option String := none
  location : Option String := none
  detected_extensions_posted_at : Option String := none
  extensions : Option (List String) := none
  via : Option String := none
  apply_options_first_link : Option String := none
  share_link : Option String := none
  description : Option String := none
  detected_extensions_salary : Option String := none
deriving Repr

/-- Raw JSearch `data` entry (union of the fields consulted by the two
JSearch mappings in the repository). -/
structure JSearchRawJob where
  job_id : Option String := none
  job_title : Option String := none
  employer_name : Option String := none
  job_city : Option String := none
  job_country : Option String := none
  job_state : Option String := none
  job_location : Option String := none
  job_posted_at : Option String := none
  job_posted_at_datetime_utc : Option String := none
  job_posted_at_timestamp : Option Int := none
  job_publisher : Option String := none
  job_apply_link : Option String := none
  job_google_link : Option String := none
  job_description : Option String := none
  job_min_salary : Option Int := none
  job_max_salary : Option Int := none
deriving Repr

/-- `job.extensions?.find(ext => ext.includes("ago"))?.trim()`
(`src/api/job-agent.js:106`). -/
def extAgoTrimmed (exts : Option (List String)) : Option String :=
  exts.bind fun l =>
    (l.find? fun e => containsSub "ago" e).map fun e => String.mk (trimChars e.data)

/-- The SerpAPI field mapping of `src/api/job-agent.js:100-114`.  `enc` is the
platform `encodeURIComponent` (kept as a parameter so theorems hold for any
encoder), `queryLocation` the `location` request parameter, `page`/`index` the
pagination position. -/
def serpMapJob (enc : String → String) (queryLocation : String)
    (page index : Nat) (job : SerpRawJob) : Posting :=
  { id := some (jsOrD job.job_id ("serp-" ++ toString page ++ "-" ++ toString index))
    title := some (jsOrD job.title "No Title")
    company := some (jsOrD job.company_name "Unknown Company")
    location := some (jsOrD job.location queryLocation)
    date := some (jsOrD (jsOr job.detected_extensions_posted_at
      (extAgoTrimmed job.extensions)) "Date not specified")
    source := some (jsOrD job.via "Google Jobs")
    link := some (jsOrD (jsOr job.apply_options_first_link job.share_link)
      ("https://www.google.com/search?q=" ++
        enc (jsToString job.title ++ " " ++ jsToString job.company_name)))
    description := some (jsOrD job.description "")
    salary := some (jsOrD job.detected_extensions_salary "Not specified") }

/-- The JSearch field mapping of `src/api/job-agent.js:178-194`.  `fmtDate`
and `fmtTs` are the platform `new Date(x).toLocaleDateString()` formatting for
a datetime string and for a millisecond timestamp. -/
def jsearchMapJob (fmtDate : String → String) (fmtTs : Int → String)
    (index : Nat) (job : JSearchRawJob) : Posting :=
  { id := some (jsOrD job.job_id ("jsearch-" ++ toString index))
    title := some (jsOrD job.job_title "No Title")
    company := some (jsOrD job.employer_name "Unknown Company")
    location := some (jsOrD (jsOr job.job_city (jsOr job.job_country job.job_state))
      "Location not specified")
    date := some (if jsTruthy job.job_posted_at_datetime_utc then
        fmtDate (job.job_posted_at_datetime_utc.getD "")
      else if jsTruthyInt job.job_posted_at_timestamp then
        fmtTs (job.job_posted_at_timestamp.getD 0 * 1000)
      else "Date not specified")
    source := some (jsOrD job.job_publisher "JSearch")
    link := some (jsOrD (jsOr job.job_apply_link job.job_google_link) "#")
    description := some (jsOrD job.job_description "")
    salary := some (if jsTruthyInt job.job_min_salary && jsTruthyInt job.job_max_salary then
        "$" ++ toString (job.job_min_salary.getD 0) ++ " - $" ++
          toString (job.job_max_salary.getD 0)
      else "Not specified") }

/-- The JSearch field mapping of the legacy variant
(`src/unnamed/part_001:109-116`): `title`, `company` and `link` have no final
default, and `id`, `description`, `salary` are not produced at all. -/
def jsearchMapJobP1 (job : JSearchRawJob) : Posting :=
  { title := job.job_title
    company := job.employer_name
    location := some (jsOrD (jsOr job.job_city job.job_location) "N/A")
    date := some (jsOrD job.job_posted_at "N/A")
    source := some (jsOrD job.job_publisher "JSearch")
    link := jsOr job.job_apply_link job.job_google_link }

/-- Every field of the posting is present (not JavaScript `undefined`). -/
def allFieldsDefined (p : Posting) : Bool :=
  p.id.isSome && p.title.isSome && p.company.isSome && p.location.isSome &&
  p.date.isSome && p.source.isSome && p.link.isSome && p.description.isSome &&
  p.salary.isSome

theorem jsOrD_ne_empty (x : Option String) {d : String} (h : d ≠ "") :
    jsOrD x d ≠ "" := by
  cases x with
  | none => exact h
  | some s =>
    by_cases hs : s = ""
    · simp [jsOrD, hs]
      exact h
    · simp [jsOrD, hs]

theorem string_append_ne_empty {a : String} (b : String) (h : a.data ≠ []) :
    a ++ b ≠ "" := by
  intro hc
  apply h
  have hd := congrArg String.data hc
  rw [String.data_append] at hd
  have hd' : a.data ++ b.data = [] := hd
  exact (List.append_eq_nil.mp hd').1

/-- C3 counterexample: the legacy JSearch mapping
(`src/unnamed/part_001:109-116`) applied to a provider record that omits every
field yields a posting whose `link`, `title` and `company` are `undefined`
(and whose `id`, `description`, `salary` are never set), so not every adapter
field mapping defaults every field, and `link` can be absent. -/
theorem jsearchMapP1_undefined_fields :
    (jsearchMapJobP1 {}).link = none ∧ (jsearchMapJobP1 {}).title = none ∧
    (jsearchMapJobP1 {}).company = none ∧
    allFieldsDefined (jsearchMapJobP1 {}) = false := by
  decide

/-- C3 (amended): for the two adapter field mappings of the main aggregation
endpoint (`src/api/job-agent.js:100-114` and `178-194`) every Posting field is
defined, `link` is non-empty (it falls back to a synthesized search URL resp.
`"#"`), and a provider record omitting every field receives exactly the
documented defaults.  The legacy variant mapping of `src/unnamed/part_001` is
excluded: it leaves `title`, `company` and `link` undefined when the provider
omits them. -/
theorem adapter_mappings_defaults (enc fmtDate : String → String)
    (fmtTs : Int → String) (loc : String) (page index : Nat) :
    (∀ job : SerpRawJob, allFieldsDefined (serpMapJob enc loc page index job) = true ∧
      jsTruthy (serpMapJob enc loc page index job).link = true) ∧
    (∀ job : JSearchRawJob, allFieldsDefined (jsearchMapJob fmtDate fmtTs index job) = true ∧
      jsTruthy (jsearchMapJob fmtDate fmtTs index job).link = true) ∧
    serpMapJob enc loc page index {} =
      { id := some ("serp-" ++ toString page ++ "-" ++ toString index)
        title := some "No Title"
        company := some "Unknown Company"
        location := some loc
        date := some "Date not specified"
        source := some "Google Jobs"
        link := some ("https://www.google.com/search?q=" ++ enc "undefined undefined")
        description := some ""
        salary := some "Not specified" } ∧
    jsearchMapJob fmtDate fmtTs index {} =
      { id := some ("jsearch-" ++ toString index)
        title := some "No Title"
        company := some "Unknown Company"
        location := some "Location not specified"
        date := some "Date not specified"
        source := some "JSearch"
        link := some "#"
        description := some ""
        salary := some "Not specified" } := by
  refine ⟨fun job => ⟨?_, ?_⟩, fun job => ⟨?_, ?_⟩, ?_, ?_⟩
  · simp [serpMapJob, allFieldsDefined]
  · have hd : ("https://www.google.com/search?q=" ++
        enc (jsToString job.title ++ " " ++ jsToString job.company_name)) ≠ "" :=
      string_append_ne_empty _ (by decide)
    simpa [serpMapJob, jsTruthy] using jsOrD_ne_empty _ hd
  · simp [jsearchMapJob, allFieldsDefined]
  · simpa [jsearchMapJob, jsTruthy] using
      jsOrD_ne_empty (jsOr job.job_apply_link job.job_google_link)
        (by decide : ("#" : String) ≠ "")
  · rfl
  · rfl

/-! ### C4: cache layer

Two cache implementations exist in the repository: the Supabase-backed
`job_cache` table of `src/api/job-agent.js:14-39` (rows `{cache_key, data,
expires_at}`, expiry compared lazily at read time, expired rows deleted on
read) and the in-memory `Map` of `src/unnamed/part_000:401-419` (entries
`{timestamp, data}`, freshness checked at read time).  Both are modelled as
association lists keyed by the cache key; the payload type is a parameter.
Time is an integer count of milliseconds. -/

/-- A row of the `job_cache` table. -/
structure CacheRow (α : Type) where
  data : α
  expires_at : Int

/-- `select ... eq("cache_key", k) ... single()`: the row stored under `k`. -/
def storeLookup {α : Type} (store : List (String × CacheRow α)) (k : String) :
    Option (CacheRow α) :=
  (store.find? fun p => p.1 == k).map Prod.snd

/-- `delete().eq("cache_key", k)`. -/
def storeDelete {α : Type} (store : List (String × CacheRow α)) (k : String) :
    List (String × CacheRow α) :=
  store.filter fun p => p.1 != k

/-- `const CACHE_TTL = 60 * 30` seconds (`src/api/job-agent.js:12`). -/
def CACHE_TTL_SECONDS : Int := 60 * 30

/-- `setCache` (`src/api/job-agent.js:31-39`): upsert of a row expiring at
`now + ttl seconds` (`CACHE_TTL` in the source; kept as a parameter).  The
position of the row in the association list is irrelevant to lookups. -/
def setCache {α : Type} (now ttlSeconds : Int)
    (store : List (String × CacheRow α)) (k : String) (v : α) :
    List (String × CacheRow α) :=
  (k, ⟨v, now + ttlSeconds * 1000⟩) :: storeDelete store k

/-- `getCache` (`src/api/job-agent.js:14-29`): miss when absent; when the
stored `expires_at` is strictly before `now`, delete the row lazily and miss;
otherwise return the payload.  Returns the value and the updated store. -/
def getCache {α : Type} (now : Int) (store : List (String × CacheRow α))
    (k : String) : Option α × List (String × CacheRow α) :=
  match storeLookup store k with
  | none => (none, store)
  | some row =>
    if row.expires_at < now then (none, storeDelete store k)
    else (some row.data, store)

/-- An entry of the in-memory cache `Map` of `src/unnamed/part_000:401-403`. -/
structure MemEntry (α : Type) where
  timestamp : Int
  data : α

/-- `const CACHE_TTL = 1000 * 60 * 10` ms (`src/unnamed/part_000:403`). -/
def MEM_CACHE_TTL : Int := 1000 * 60 * 10

/-- `cache.set(cacheKey, { data, timestamp: Date.now() })`
(`src/unnamed/part_000:676`). -/
def memCacheSet {α : Type} (now : Int) (store : List (String × MemEntry α))
    (k : String) (v : α) : List (String × MemEntry α) :=
  (k, ⟨now, v⟩) :: store.filter fun p => p.1 != k

/-- `cache.get(cacheKey)` guarded by
`cached && (Date.now() - cached.timestamp) < CACHE_TTL`
(`src/unnamed/part_000:414-419`); a stale entry is simply ignored. -/
def memCacheGet {α : Type} (now ttl : Int) (store : List (String × MemEntry α))
    (k : String) : Option α :=
  match (store.find? fun p => p.1 == k).map Prod.snd with
  | none => none
  | some e => if now - e.timestamp < ttl then some e.data else none

/-- C4: in both cache implementations, a `get(k)` after `set(k, v, ttl)`
returns `v` when performed before the TTL has elapsed and misses when
performed after it has elapsed; expiry is decided lazily at read time by
comparing the stored expiry (resp. write timestamp) against the reading
clock. -/
theorem cache_get_after_set {α : Type} (store : List (String × CacheRow α))
    (mstore : List (String × MemEntry α)) (k : String) (v : α)
    (ttl now₀ now₁ : Int) :
    (now₁ - now₀ < ttl * 1000 →
      (getCache now₁ (setCache now₀ ttl store k v) k).1 = some v) ∧
    (now₁ - now₀ > ttl * 1000 →
      (getCache now₁ (setCache now₀ ttl store k v) k).1 = none) ∧
    (now₁ - now₀ < ttl →
      memCacheGet now₁ ttl (memCacheSet now₀ mstore k v) k = some v) ∧
    (now₁ - now₀ > ttl →
      memCacheGet now₁ ttl (memCacheSet now₀ mstore k v) k = none) := by
  refine ⟨fun h => ?_, fun h => ?_, fun h => ?_, fun h => ?_⟩
  · simp [getCache, setCache, storeLookup,
      show ¬(now₀ + ttl * 1000 < now₁) from by omega]
  · simp [getCache, setCache, storeLookup,
      show now₀ + ttl * 1000 < now₁ from by omega]
  · simp [memCacheGet, memCacheSet,
      show now₁ - now₀ < ttl from by omega]
  · simp [memCacheGet, memCacheSet,
      show ¬(now₁ - now₀ < ttl) from by omega]

/-- Closed witness for C4: concrete fresh and expired reads in both cache
implementations. -/
theorem cache_get_after_set_witness :
    (getCache 5 (setCache 0 1 ([] : List (String × CacheRow Nat)) "k" 7) "k").1
        = some 7 ∧
    (getCache 2000 (setCache 0 1 ([] : List (String × CacheRow Nat)) "k" 7) "k").1
        = none ∧
    memCacheGet 5 600000 (memCacheSet 0 ([] : List (String × MemEntry Nat)) "k" 7) "k"
        = some 7 ∧
    memCacheGet 700000 600000 (memCacheSet 0 ([] : List (String × MemEntry Nat)) "k" 7) "k"
        = none := by
  have h₁ := cache_get_after_set ([] : List (String × CacheRow Nat))
    ([] : List (String × MemEntry Nat)) "k" 7 1 0 5
  have h₂ := cache_get_after_set ([] : List (String × CacheRow Nat))
    ([] : List (String × MemEntry Nat)) "k" 7 1 0 2000
  have h₃ := cache_get_after_set ([] : List (String × CacheRow Nat))
    ([] : List (String × MemEntry Nat)) "k" 7 600000 0 5
  have h₄ := cache_get_after_set ([] : List (String × CacheRow Nat))
    ([] : List (String × MemEntry Nat)) "k" 7 600000 0 700000
  exact ⟨h₁.1 (by decide), h₂.2.1 (by decide), h₃.2.2.1 (by decide),
    h₄.2.2.2 (by decide)⟩

/-! ### C5/C6: HTML escaping and report rendering -/

/-- Replacement of a single character under
`text.replace(/[&<>"']/g, m => map[m])` (`src/pages/api/send-job-report.js:291`). -/
def escapeHtmlChar (c : Char) : List Char :=
  if c = '&' then "&amp;".data
  else if c = '<' then "&lt;".data
  else if c = '>' then "&gt;".data
  else if c = '"' then "&quot;".data
  else if c = '\'' then "&#039;".data
  else [c]

/-- `escapeHtml` (`src/pages/api/send-job-report.js:282-292`): a falsy input
(`undefined`, `null`, `''`) yields `''`; otherwise the five HTML
metacharacters are replaced by their entities. -/
def escapeHtml (text : Option String) : String :=
  if !jsTruthy text then ""
  else String.mk ((text.getD "").data.flatMap escapeHtmlChar)

/-- Spec-side HTML entity decoder for the five entities produced by
`escapeHtml` ("the escaped text must round-trip to the original string when
HTML-unescaped"): scan left to right, decoding `&amp;` `&lt;` `&gt;` `&quot;`
`&#039;` and copying every other character. -/
def unescChars : List Char → List Char
  | [] => []
  | c :: rest =>
    if c = '&' then
      if "amp;".data.isPrefixOf rest then '&' :: unescChars (rest.drop 4)
      else if "lt;".data.isPrefixOf rest then '<' :: unescChars (rest.drop 3)
      else if "gt;".data.isPrefixOf rest then '>' :: unescChars (rest.drop 3)
      else if "quot;".data.isPrefixOf rest then '"' :: unescChars (rest.drop 5)
      else if "#039;".data.isPrefixOf rest then '\'' :: unescChars (rest.drop 5)
      else '&' :: unescChars rest
    else c :: unescChars rest
termination_by l => l.length
decreasing_by
  all_goals simp only [List.length_cons, List.length_drop]
  all_goals omega

/-- HTML-unescaping on strings. -/
def unescapeHtml (s : String) : String := String.mk (unescChars s.data)

/-- One job card of the report e-mail
(`src/pages/api/send-job-report.js:137-161`); `loc` is the request's
`location` field, `job.link` is interpolated raw into the `href`. -/
def jobCardHtml (loc : Option String) (job : Posting) : String :=
  "\n    <div style=\"background: #ffffff; border: 1px solid #e1e5e9; border-radius: 8px; padding: 20px; margin: 15px 0; border-left: 4px solid #667eea;\">\n      <h3 style=\"margin: 0 0 8px 0; color: #333; font-size: 18px; font-weight: 600;\">\n        "
  ++ escapeHtml (jsOr job.title (some "Untitled Position"))
  ++ "\n      </h3>\n      <p style=\"margin: 0 0 10px 0; color: #667eea; font-size: 16px; font-weight: 500;\">\n        🏢 "
  ++ escapeHtml (jsOr job.company (some "Company Not Specified"))
  ++ "\n      </p>\n      <div style=\"margin: 10px 0; font-size: 14px; color: #666;\">\n        📍 "
  ++ escapeHtml (jsOr job.location loc)
  ++ " • \n        📅 "
  ++ escapeHtml (jsOr job.date (some "Date not specified"))
  ++ " • \n        🔗 "
  ++ escapeHtml (jsOr job.source (some "Unknown Source"))
  ++ "\n        "
  ++ (if jsTruthy job.salary && (job.salary.getD "" != "Not specified") then
        " • 💰 " ++ escapeHtml job.salary
      else "")
  ++ "\n      </div>\n      "
  ++ (if jsTruthy job.description then
        "\n        <div style=\"background: #f8f9fa; padding: 12px; border-radius: 6px; margin: 10px 0; font-size: 14px; color: #555; line-height: 1.5;\">\n          "
        ++ escapeHtml (some (String.mk ((job.description.getD "").data.take 300)))
        ++ (if (job.description.getD "").data.length > 300 then "..." else "")
        ++ "\n        </div>\n      "
      else "")
  ++ "\n      <a href=\""
  ++ jsToString job.link
  ++ "\" target=\"_blank\" rel=\"noopener noreferrer\" \n         style=\"display: inline-block; background: #28a745; color: white; padding: 10px 20px; text-decoration: none; border-radius: 6px; font-size: 14px; font-weight: 600; margin-top: 10px;\">\n        Apply Now →\n      </a>\n    </div>\n  "

/-- `jobs.slice(0, 50).map(...).join('')`
(`src/pages/api/send-job-report.js:137,161`). -/
def jobCardsHtml (loc : Option String) (jobs : List Posting) : String :=
  String.join ((jobs.take 50).map (jobCardHtml loc))

/-- The summary section of the report e-mail
(`src/pages/api/send-job-report.js:164-174`); `m` is the markdown renderer
`marked.parse`, applied to the raw summary with no HTML escaping. -/
def summaryHtml (m : String → String) (summary : Option String) : String :=
  if jsTruthy summary && (summary.getD "" != "No jobs to analyze.") &&
      (summary.getD "" != "AI analysis not available.") then
    "\n      <div style=\"background: #f8f9fa; border: 1px solid #e9ecef; border-left: 6px solid #667eea; padding: 20px; margin: 20px 0; border-radius: 8px;\">\n        <h3 style=\"margin: 0 0 15px 0; color: #667eea;\">🤖 AI Market Analysis</h3>\n        <div style=\"line-height: 1.6; color: #333;\">\n          "
    ++ m (summary.getD "")
    ++ "\n        </div>\n      </div>\n    "
  else ""

/-- One `<li>` of the e-mail body built by the main aggregation endpoint
(`src/api/job-agent.js:316-320`); no field is escaped. -/
def jobListItemHtml (job : Posting) : String :=
  "<li><strong>" ++ jsToString job.title ++ "</strong> at "
  ++ jsToString job.company ++ "<br>\n           📍 "
  ++ jsToString job.location ++ " | 📅 " ++ jsToString job.date
  ++ "<br>\n           <a href=\"" ++ jsToString job.link
  ++ "\" target=\"_blank\">Apply via " ++ jsToString job.source ++ "</a></li>"

/-- `finalJobs.slice(0, 20).map(...).join("")` (`src/api/job-agent.js:316-320`). -/
def jobListHtml (jobs : List Posting) : String :=
  String.join ((jobs.take 20).map jobListItemHtml)

theorem unescChars_flatMap_escape (l : List Char) :
    unescChars (l.flatMap escapeHtmlChar) = l := by
  induction l with
  | nil => simp [unescChars]
  | cons c rest ih =>
    rw [List.flatMap_cons]
    by_cases h1 : c = '&'
    · subst h1; simp [escapeHtmlChar, unescChars, List.isPrefixOf, ih]
    · by_cases h2 : c = '<'
      · subst h2; simp [escapeHtmlChar, unescChars, List.isPrefixOf, ih]
      · by_cases h3 : c = '>'
        · subst h3; simp [escapeHtmlChar, unescChars, List.isPrefixOf, ih]
        · by_cases h4 : c = '"'
          · subst h4; simp [escapeHtmlChar, unescChars, List.isPrefixOf, ih]
          · by_cases h5 : c = '\''
            · subst h5; simp [escapeHtmlChar, unescChars, List.isPrefixOf, ih]
            · simp [escapeHtmlChar, h1, h2, h3, h4, h5, unescChars, ih]

set_option maxRecDepth 100000 in
/-- C5: the job-card renderer applied to a posting whose title is
`<script>alert(1)</script>` produces no literal `<script>` anywhere in the
rendered HTML, and HTML-unescaping the output of `escapeHtml` yields back the
original string for every input string. -/
theorem report_title_script_escaped_and_roundtrip :
    containsSub "<script>"
      (jobCardsHtml (some "Bangalore, India")
        [{ id := some "1", title := some "<script>alert(1)</script>",
           company := some "Acme", location := some "Bangalore",
           date := some "today", source := some "SerpAPI",
           link := some "https://example.com/apply",
           description := some "", salary := some "Not specified" }]) = false ∧
    ∀ s : String, unescapeHtml (escapeHtml (some s)) = s := by
  constructor
  · decide
  · intro s
    by_cases h : s = ""
    · subst h
      simp [escapeHtml, jsTruthy, unescapeHtml, unescChars]
    · simp [escapeHtml, jsTruthy, h, unescapeHtml, unescChars_flatMap_escape]

set_option maxRecDepth 100000 in
/-- C6 counterexample: the e-mail body renderer of the main aggregation
endpoint (`src/api/job-agent.js:316-320`) interpolates the provider-supplied
`title` (and every other field) into the HTML without any escaping, so its
output contains a literal `<script>` — the claim that every rendered
user/provider string field is escaped is false of the code. -/
theorem jobListHtml_unescaped_script :
    containsSub "<script>"
      (jobListHtml [{ title := some "<script>alert(1)</script>",
                      company := some "Acme", location := some "Bangalore",
                      date := some "today", source := some "SerpAPI",
                      link := some "https://example.com/apply" }]) = true := by
  decide

theorem escapeHtmlChar_no_specials (d : Char) :
    ∀ c ∈ escapeHtmlChar d, c ≠ '<' ∧ c ≠ '>' ∧ c ≠ '"' ∧ c ≠ '\'' := by
  intro c hc
  unfold escapeHtmlChar at hc
  split_ifs at hc with h1 h2 h3 h4 h5
  · fin_cases hc <;> exact ⟨by decide, by decide, by decide, by decide⟩
  · fin_cases hc <;> exact ⟨by decide, by decide, by decide, by decide⟩
  · fin_cases hc <;> exact ⟨by decide, by decide, by decide, by decide⟩
  · fin_cases hc <;> exact ⟨by decide, by decide, by decide, by decide⟩
  · fin_cases hc <;> exact ⟨by decide, by decide, by decide, by decide⟩
  · simp at hc
    subst hc
    exact ⟨h2, h3, h4, h5⟩

set_option maxRecDepth 1000000 in
/-- C6 (amended): in the `send-job-report` renderer, the card fields `title`,
`company`, `location`, `date`, `source`, `salary` and `description` pass
through `escapeHtml` — whose output never contains `<`, `>`, `"` or `'`, so a
script payload in any of those fields yields no literal `<script>` — but the
escaping contract does not hold of the whole system: `link` is interpolated
raw into the `href`, the summary is handed to the markdown parser
`marked.parse` with no HTML escaping (a parser passing raw HTML through, as
`marked` does by default, reproduces `<script>`), and the e-mail renderer of
`src/api/job-agent.js` escapes nothing (see the counterexample). -/
theorem report_renderer_escaping :
    (∀ x : Option String, ∀ c ∈ (escapeHtml x).data,
        c ≠ '<' ∧ c ≠ '>' ∧ c ≠ '"' ∧ c ≠ '\'') ∧
    containsSub "<script>"
      (jobCardsHtml (some "<script>alert(1)</script>")
        [{ id := some "1", title := some "<script>alert(1)</script>",
           company := some "<script>alert(1)</script>",
           location := none,
           date := some "<script>alert(1)</script>",
           source := some "<script>alert(1)</script>",
           link := some "https://example.com/apply",
           description := some "<script>alert(1)</script>",
           salary := some "<script>alert(1)</script>" }]) = false ∧
    containsSub "<script>"
      (jobCardsHtml (some "x")
        [{ link := some "<script>alert(1)</script>" }]) = true ∧
    containsSub "<script>"
      (summaryHtml id (some "<script>alert(1)</script>")) = true := by
  refine ⟨?_, by decide, by decide, by decide⟩
  intro x c hc
  cases x with
  | none => simp [escapeHtml, jsTruthy] at hc
  | some s =>
    by_cases hs : s = ""
    · simp [escapeHtml, jsTruthy, hs] at hc
    · simp [escapeHtml, jsTruthy, hs] at hc
      obtain ⟨d, _, hcd⟩ := hc
      exact escapeHtmlChar_no_specials d c hcd

/-! ### C7: delivery entry point validation -/

/-- A character admitted by the regex class `[^\s@]`. -/
def emailOkChar (c : Char) : Bool := !(isWsChar c) && c != '@'

/-- `isValidEmail` (`src/pages/api/send-job-report.js:122-125`): the regex
`^[^\s@]+@[^\s@]+\.[^\s@]+$`, decided by searching for a decomposition
`local @ middle . tail` — an `'@'` at a position `i ≥ 1` (non-empty local
part), a `'.'` at a position `j` with `i + 2 ≤ j` (non-empty middle) and
`j + 2 ≤ n` (non-empty tail), every position other than the `'@'` holding a
non-whitespace, non-`'@'` character (which makes the `'@'` unique; further
dots are admitted by the class). -/
def isValidEmail (email : String) : Bool :=
  let cs := email.data
  let n := cs.length
  (List.range n).any fun i =>
    (List.range n).any fun j =>
      (cs.getD i ' ' == '@') && (cs.getD j ' ' == '.') &&
      decide (1 ≤ i) && decide (i + 2 ≤ j) && decide (j + 2 ≤ n) &&
      ((List.range n).all fun k => (k == i) || emailOkChar (cs.getD k ' '))

/-- The request body consumed by the delivery entry point
(`src/pages/api/send-job-report.js:17-25`); `jobs` defaults to `[]`. -/
structure SendReportRequest where
  method : String := "POST"
  userEmail : Option String := none
  jobType : Option String := none
  location : Option String := none
  jobs : List Posting := []
  summary : Option String := none

/-- The e-mail transport configuration read from the environment. -/
structure EmailEnv where
  emailUser : Option String := none
  emailPass : Option String := none

/-- Response of the delivery entry point (status code plus JSON body
fields). -/
structure SendReportResponse where
  status : Nat
  success : Bool
  error : Option String := none
  message : Option String := none
  jobCount : Option Nat := none
deriving Repr, DecidableEq

/-- The delivery handler of `src/pages/api/send-job-report.js:7-119`,
modelled up to the transport collaborator: `verifyOk` is the outcome of
`transporter.verify()` and `sendOutcome` of `transporter.sendMail(...)`.  The
second component records whether the transport collaborator was invoked at
all (transporter creation/verification or send). -/
def sendReportHandler (env : EmailEnv) (verifyOk : Bool)
    (sendOutcome : Except String String) (req : SendReportRequest) :
    SendReportResponse × Bool :=
  if req.method != "POST" then
    ({ status := 405, success := false,
       error := some "Method not allowed. Use POST." }, false)
  else if !jsTruthy req.userEmail then
    ({ status := 400, success := false,
       error := some "User email address is required" }, false)
  else if !isValidEmail (req.userEmail.getD "") then
    ({ status := 400, success := false,
       error := some "Invalid email address format" }, false)
  else if req.jobs.isEmpty then
    ({ status := 400, success := false,
       error := some "No job data provided to send" }, false)
  else if !(jsTruthy env.emailUser && jsTruthy env.emailPass) then
    ({ status := 503, success := false,
       error := some "Email service not configured. Please contact administrator." },
      false)
  else if !verifyOk then
    ({ status := 503, success := false,
       error := some "Email service configuration error. Please try again later." },
      true)
  else
    match sendOutcome with
    | .ok _ =>
      ({ status := 200, success := true,
         message := some ("Job report sent successfully to " ++ req.userEmail.getD ""),
         jobCount := some req.jobs.length }, true)
    | .error _ =>
      ({ status := 500, success := false,
         error := some "Failed to send email. Please try again later." }, true)

/-- C7: a POST request whose `userEmail` fails the syntactic e-mail check
(also when it is missing entirely) is answered with a 400 validation failure,
and the e-mail transport collaborator is never invoked. -/
theorem invalid_email_rejected (env : EmailEnv) (verifyOk : Bool)
    (sendOutcome : Except String String) (req : SendReportRequest)
    (hm : req.method = "POST")
    (hv : isValidEmail (req.userEmail.getD "") = false) :
    (sendReportHandler env verifyOk sendOutcome req).1.status = 400 ∧
    (sendReportHandler env verifyOk sendOutcome req).1.success = false ∧
    (sendReportHandler env verifyOk sendOutcome req).2 = false := by
  by_cases ht : jsTruthy req.userEmail
  · simp [sendReportHandler, hm, ht, hv]
  · simp [sendReportHandler, hm, ht]

/-- Closed witness for C7 at `userEmail = "not-an-email"`. -/
theorem invalid_email_rejected_witness :
    (sendReportHandler {} true (Except.ok "id")
      { method := "POST", userEmail := some "not-an-email",
        jobs := [{ title := some "t" }] }).1.status = 400 ∧
    (sendReportHandler {} true (Except.ok "id")
      { method := "POST", userEmail := some "not-an-email",
        jobs := [{ title := some "t" }] }).1.success = false ∧
    (sendReportHandler {} true (Except.ok "id")
      { method := "POST", userEmail := some "not-an-email",
        jobs := [{ title := some "t" }] }).2 = false :=
  invalid_email_rejected {} true (Except.ok "id")
    { method := "POST", userEmail := some "not-an-email",
      jobs := [{ title := some "t" }] } rfl (by decide)

/-! ### C8/C9: the main aggregation endpoint's response

`src/api/job-agent.js:206-366`, starting from the point where the two
adapter phases have produced their posting lists and error strings; the LLM
(`model.generateContent`) and the mail transport (`transporter.sendMail`) are
modelled by their outcomes. -/

/-- `errors.join('; ')`. -/
def joinSep (sep : String) : List String → String
  | [] => ""
  | [x] => x
  | x :: xs => x ++ sep ++ joinSep sep xs

/-- The `stats` object of the final response (`src/api/job-agent.js:357-362`). -/
structure Stats where
  serpApiJobs : Nat
  jsearchJobs : Nat
  totalUnique : Nat
  duplicatesRemoved : Nat
deriving Repr, DecidableEq

/-- The JSON response of the aggregation endpoint (status code plus the body
fields the claims are about; `errorsField` models the
`errors.length > 0 ? errors : undefined` field). -/
structure AgentResponse where
  status : Nat
  success : Bool
  message : String
  jobs : List Posting
  summary : String
  stats : Option Stats := none
  errorsField : Option (List String) := none
deriving Repr, DecidableEq

/-- The environment credentials consulted by the aggregation endpoint. -/
structure AgentEnv where
  serpApiKey : Option String := none
  geminiApiKey : Option String := none
  jsearchApiKey : Option String := none
  emailUser : Option String := none
  emailPass : Option String := none
  emailTo : Option String := none

/-- The AI summarization stage (`src/api/job-agent.js:254-302`):
`aiAnalysis` starts as the sentinel and is replaced only when the Gemini key
is configured, jobs are present, and the collaborator returns text; a thrown
error keeps the sentinel and appends to `errors`. -/
def aiStage (geminiKey : Option String) (finalJobs : List Posting)
    (errors : List String) (outcome : Except String String) :
    String × List String :=
  if jsTruthy geminiKey && decide (finalJobs.length > 0) then
    match outcome with
    | .ok text => (text, errors)
    | .error e => ("AI analysis not available.", errors ++ ["AI Analysis Error: " ++ e])
  else ("AI analysis not available.", errors)

/-- The optional e-mail stage (`src/api/job-agent.js:304-349`): run only when
the three mail credentials are set and jobs are present; a thrown error is
appended to `errors`. -/
def emailStage (env : AgentEnv) (finalJobs : List Posting)
    (errors : List String) (outcome : Except String Unit) : List String :=
  if jsTruthy env.emailUser && jsTruthy env.emailPass && jsTruthy env.emailTo &&
      decide (finalJobs.length > 0) then
    match outcome with
    | .ok _ => errors
    | .error e => errors ++ ["Email Error: " ++ e]
  else errors

/-- `src/api/job-agent.js:206-366`: combine, deduplicate, branch on empty
results (lines 234-252), summarize, e-mail, and build the final 200
response (lines 352-366). -/
def mainRespond (env : AgentEnv) (jobType location : String)
    (serpJobs jsearchJobs : List Posting) (errors0 : List String)
    (geminiOutcome : Except String String) (emailOutcome : Except String Unit) :
    AgentResponse :=
  let finalJobs := dedup (serpJobs ++ jsearchJobs)
  if finalJobs.length = 0 then
    { status := 200, success := true
      message := if errors0.length > 0 then
          "No jobs found. Errors encountered: " ++ joinSep "; " errors0
        else "No jobs found from any source."
      jobs := [], summary := "No jobs to analyze."
      errorsField := some errors0 }
  else
    let ai := aiStage env.geminiApiKey finalJobs errors0 geminiOutcome
    let errors2 := emailStage env finalJobs ai.2 emailOutcome
    { status := 200, success := true
      message := "Successfully found " ++ toString finalJobs.length ++ " " ++
        jobType ++ " jobs in " ++ location
      jobs := finalJobs
      summary := ai.1
      stats := some { serpApiJobs := serpJobs.length
                      jsearchJobs := jsearchJobs.length
                      totalUnique := finalJobs.length
                      duplicatesRemoved :=
                        serpJobs.length + jsearchJobs.length - finalJobs.length }
      errorsField := if errors2.length > 0 then some errors2 else none }

/-- The empty-results response of the in-memory-cache variant
(`src/unnamed/part_000:812-820`); it carries no errors field at all. -/
def part0EmptyResponse : AgentResponse :=
  { status := 200, success := true
    message := "No jobs found (both APIs returned empty)."
    jobs := [], summary := "No jobs to report." }

theorem mem_emailStage (env : AgentEnv) (finalJobs : List Posting)
    (errors : List String) (outcome : Except String Unit) {x : String}
    (hx : x ∈ errors) : x ∈ emailStage env finalJobs errors outcome := by
  unfold emailStage
  split
  · cases outcome with
    | ok _ => exact hx
    | error e => exact List.mem_append_left _ hx
  · exact hx

theorem emailStage_ne_nil (env : AgentEnv) (finalJobs : List Posting)
    (errors : List String) (outcome : Except String Unit)
    (h : errors ≠ []) : emailStage env finalJobs errors outcome ≠ [] := by
  unfold emailStage
  split
  · cases outcome with
    | ok _ => exact h
    | error e => simp
  · exact h

/-- C8: when the summarizer collaborator throws, the pipeline's `summary` is
the literal sentinel `"AI analysis not available."`, the failure is recorded
in the errors list of the response, and the endpoint still answers 200 with
the aggregated postings. -/
theorem summarizer_failure_nonfatal (env : AgentEnv) (jobType location : String)
    (serpJobs jsearchJobs : List Posting) (errors0 : List String) (e : String)
    (emailOutcome : Except String Unit)
    (hg : jsTruthy env.geminiApiKey = true)
    (hne : dedup (serpJobs ++ jsearchJobs) ≠ []) :
    (mainRespond env jobType location serpJobs jsearchJobs errors0
      (Except.error e) emailOutcome).status = 200 ∧
    (mainRespond env jobType location serpJobs jsearchJobs errors0
      (Except.error e) emailOutcome).success = true ∧
    (mainRespond env jobType location serpJobs jsearchJobs errors0
      (Except.error e) emailOutcome).summary = "AI analysis not available." ∧
    (mainRespond env jobType location serpJobs jsearchJobs errors0
      (Except.error e) emailOutcome).jobs = dedup (serpJobs ++ jsearchJobs) ∧
    (mainRespond env jobType location serpJobs jsearchJobs errors0
      (Except.error e) emailOutcome).errorsField ≠ none ∧
    ("AI Analysis Error: " ++ e) ∈
      ((mainRespond env jobType location serpJobs jsearchJobs errors0
        (Except.error e) emailOutcome).errorsField.getD []) := by
  have hlen : ¬((dedup (serpJobs ++ jsearchJobs)).length = 0) := by
    simpa [List.length_eq_zero] using hne
  have hcond : (jsTruthy env.geminiApiKey &&
      decide ((dedup (serpJobs ++ jsearchJobs)).length > 0)) = true := by
    simp only [hg, Bool.true_and, decide_eq_true_eq]
    omega
  have hai : aiStage env.geminiApiKey (dedup (serpJobs ++ jsearchJobs)) errors0
      (Except.error e) =
      ("AI analysis not available.", errors0 ++ ["AI Analysis Error: " ++ e]) := by
    unfold aiStage
    rw [if_pos hcond]
  have hmem : ("AI Analysis Error: " ++ e) ∈
      emailStage env (dedup (serpJobs ++ jsearchJobs))
        (errors0 ++ ["AI Analysis Error: " ++ e]) emailOutcome :=
    mem_emailStage _ _ _ _
      (List.mem_append_right _ (List.mem_singleton.mpr rfl))
  have hnonempty : emailStage env (dedup (serpJobs ++ jsearchJobs))
      (errors0 ++ ["AI Analysis Error: " ++ e]) emailOutcome ≠ [] :=
    emailStage_ne_nil _ _ _ _ (by simp)
  have hlenpos : (emailStage env (dedup (serpJobs ++ jsearchJobs))
      (errors0 ++ ["AI Analysis Error: " ++ e]) emailOutcome).length > 0 := by
    cases hE : emailStage env (dedup (serpJobs ++ jsearchJobs))
        (errors0 ++ ["AI Analysis Error: " ++ e]) emailOutcome with
    | nil => exact absurd hE hnonempty
    | cons a l => simp
  unfold mainRespond
  rw [if_neg hlen]
  simp only [hai, if_pos hlenpos]
  refine ⟨by simp, by simp, by simp, by simp, by simp, by simpa using hmem⟩

/-- Closed witness for C8: one posting, a configured summarizer that throws
`"quota"`. -/
theorem summarizer_failure_nonfatal_witness :
    (mainRespond { geminiApiKey := some "g" } "Software Engineer" "Bangalore, India"
      [{ title := some "Engineer", company := some "Acme" }] [] []
      (Except.error "quota") (Except.ok ())).status = 200 ∧
    (mainRespond { geminiApiKey := some "g" } "Software Engineer" "Bangalore, India"
      [{ title := some "Engineer", company := some "Acme" }] [] []
      (Except.error "quota") (Except.ok ())).success = true ∧
    (mainRespond { geminiApiKey := some "g" } "Software Engineer" "Bangalore, India"
      [{ title := some "Engineer", company := some "Acme" }] [] []
      (Except.error "quota") (Except.ok ())).summary = "AI analysis not available." ∧
    (mainRespond { geminiApiKey := some "g" } "Software Engineer" "Bangalore, India"
      [{ title := some "Engineer", company := some "Acme" }] [] []
      (Except.error "quota") (Except.ok ())).jobs =
        dedup ([{ title := some "Engineer", company := some "Acme" }] ++ []) ∧
    (mainRespond { geminiApiKey := some "g" } "Software Engineer" "Bangalore, India"
      [{ title := some "Engineer", company := some "Acme" }] [] []
      (Except.error "quota") (Except.ok ())).errorsField ≠ none ∧
    ("AI Analysis Error: " ++ "quota") ∈
      ((mainRespond { geminiApiKey := some "g" } "Software Engineer" "Bangalore, India"
        [{ title := some "Engineer", company := some "Acme" }] [] []
        (Except.error "quota") (Except.ok ())).errorsField.getD []) :=
  summarizer_failure_nonfatal { geminiApiKey := some "g" }
    "Software Engineer" "Bangalore, India"
    [{ title := some "Engineer", company := some "Acme" }] [] [] "quota"
    (Except.ok ()) (by decide) (by decide)

/-- C9: with zero postings from all adapters (in particular with zero
configured adapters) the aggregation endpoint answers 200 with
`success: true`, an empty jobs list, the errors list as-is (empty when no
adapter failed), and an explanatory "no jobs" message — never an error
status; the in-memory-cache variant's empty branch likewise answers 200 with
`success: true` and an explanatory message. -/
theorem zero_results_success (env : AgentEnv) (jobType location : String)
    (errors0 : List String) (gOut : Except String String)
    (eOut : Except String Unit) :
    (mainRespond env jobType location [] [] errors0 gOut eOut).status = 200 ∧
    (mainRespond env jobType location [] [] errors0 gOut eOut).success = true ∧
    (mainRespond env jobType location [] [] errors0 gOut eOut).jobs = [] ∧
    (mainRespond env jobType location [] [] errors0 gOut eOut).summary
      = "No jobs to analyze." ∧
    (mainRespond env jobType location [] [] errors0 gOut eOut).errorsField
      = some errors0 ∧
    (mainRespond env jobType location [] [] [] gOut eOut).errorsField = some [] ∧
    (mainRespond env jobType location [] [] [] gOut eOut).message
      = "No jobs found from any source." ∧
    part0EmptyResponse.status = 200 ∧
    part0EmptyResponse.success = true ∧
    part0EmptyResponse.jobs = [] ∧
    part0EmptyResponse.message = "No jobs found (both APIs returned empty)." := by
  have h0 : dedup (([] : List Posting) ++ []) = [] := rfl
  refine ⟨?_, ?_, ?_, ?_, ?_, ?_, ?_, rfl, rfl, rfl, rfl⟩ <;>
    simp [mainRespond, h0, dedup, dedupAux, part0EmptyResponse, joinSep]

/-! ### C10: guarded cache writes in the adapter fetch phases -/

/-- One SerpAPI page response (`data.jobs_results`,
`data.serpapi_pagination?.next_page_token`). -/
structure SerpPage where
  jobs_results : List SerpRawJob := []
  next_page_token : Option String := none

/-- The pagination loop of `src/api/job-agent.js:74-125`: up to three pages
(`fuel` starts at 3); a failed fetch aborts the loop keeping the postings
accumulated so far and produces the error string pushed by the catch block;
an empty `jobs_results` or a missing continuation token ends the loop. -/
def serpLoop (enc : String → String) (loc : String)
    (pageResp : Nat → Except String SerpPage) :
    Nat → Nat → List Posting → List Posting × Option String
  | 0, _, acc => (acc, none)
  | fuel + 1, page, acc =>
    match pageResp page with
    | .error msg => (acc, some ("SerpAPI Error: " ++ msg))
    | .ok data =>
      if data.jobs_results.length > 0 then
        let acc' := acc ++ data.jobs_results.mapIdx
          (fun i job => serpMapJob enc loc page i job)
        match data.next_page_token with
        | some _ => serpLoop enc loc pageResp fuel (page + 1) acc'
        | none => (acc', none)
      else (acc, none)

/-- The SerpAPI fetch phase of `src/api/job-agent.js:62-136`: skipped when the
key is not configured; a fresh cached value (even an empty list) is served
as-is; on a miss the pagination loop runs and `setCache` is invoked only when
the loop finished without throwing and accumulated at least one posting.
Returns the postings, the error strings, and the resulting cache store. -/
def serpFetchPhase (enc : String → String) (jobType loc : String)
    (env : AgentEnv) (now : Int)
    (store : List (String × CacheRow (List Posting)))
    (pageResp : Nat → Except String SerpPage) :
    List Posting × List String × List (String × CacheRow (List Posting)) :=
  if !jsTruthy env.serpApiKey then ([], [], store)
  else
    match getCache now store ("serpapi_" ++ jobType ++ "_" ++ loc) with
    | (some cached, store') => (cached, [], store')
    | (none, store') =>
      match serpLoop enc loc pageResp 3 0 [] with
      | (acc, some errMsg) => (acc, [errMsg], store')
      | (acc, none) =>
        if acc.length > 0 then
          (acc, [],
            setCache now CACHE_TTL_SECONDS store'
              ("serpapi_" ++ jobType ++ "_" ++ loc) acc)
        else (acc, [], store')

/-- The JSearch response body (`jsearchData.data` may be missing). -/
structure JSearchResponseData where
  data : Option (List JSearchRawJob) := none

/-- The JSearch fetch phase of `src/api/job-agent.js:139-204`: `setCache` is
invoked only inside `if (jsearchData.data?.length > 0)`, i.e. only when the
provider returned a non-empty `data` array. -/
def jsearchFetchPhase (fmtDate : String → String) (fmtTs : Int → String)
    (jobType loc : String) (env : AgentEnv) (now : Int)
    (store : List (String × CacheRow (List Posting)))
    (resp : Except String JSearchResponseData) :
    List Posting × List String × List (String × CacheRow (List Posting)) :=
  if !jsTruthy env.jsearchApiKey then ([], [], store)
  else
    match getCache now store ("jsearch_" ++ jobType ++ "_" ++ loc) with
    | (some cached, store') => (cached, [], store')
    | (none, store') =>
      match resp with
      | .error msg => ([], ["JSearch Error: " ++ msg], store')
      | .ok d =>
        match d.data with
        | some jobsList =>
          if jobsList.length > 0 then
            let mapped := jobsList.mapIdx
              (fun i job => jsearchMapJob fmtDate fmtTs i job)
            (mapped, [],
              setCache now CACHE_TTL_SECONDS store'
                ("jsearch_" ++ jobType ++ "_" ++ loc) mapped)
          else ([], [], store')
        | none => ([], [], store')

/-- C10: when a configured adapter's fetch phase ends with zero postings, the
resulting cache store is exactly the store left by the cache read — no cache
entry is written for the key (the SerpAPI write is guarded by
`serpJobs.length > 0`, the JSearch write by a non-empty provider `data`
array). -/
theorem empty_fetch_writes_no_cache (enc fmtDate : String → String)
    (fmtTs : Int → String) (jobType loc : String) (env : AgentEnv) (now : Int)
    (store jstore : List (String × CacheRow (List Posting)))
    (pageResp : Nat → Except String SerpPage)
    (resp : Except String JSearchResponseData)
    (hs : jsTruthy env.serpApiKey = true)
    (hj : jsTruthy env.jsearchApiKey = true) :
    ((serpFetchPhase enc jobType loc env now store pageResp).1 = [] →
      (serpFetchPhase enc jobType loc env now store pageResp).2.2
        = (getCache now store ("serpapi_" ++ jobType ++ "_" ++ loc)).2) ∧
    ((jsearchFetchPhase fmtDate fmtTs jobType loc env now jstore resp).1 = [] →
      (jsearchFetchPhase fmtDate fmtTs jobType loc env now jstore resp).2.2
        = (getCache now jstore ("jsearch_" ++ jobType ++ "_" ++ loc)).2) := by
  constructor
  · intro h1
    unfold serpFetchPhase at h1 ⊢
    rw [hs] at h1 ⊢
    simp only [Bool.not_true, Bool.false_eq_true, if_false] at h1 ⊢
    cases hG : getCache now store ("serpapi_" ++ jobType ++ "_" ++ loc) with
    | mk o store' =>
      rw [hG] at h1
      cases o with
      | some c => simp
      | none =>
        cases hL : serpLoop enc loc pageResp 3 0 [] with
        | mk acc err =>
          rw [hL] at h1
          cases err with
          | some msg => simp
          | none =>
            cases acc with
            | nil => simp
            | cons a l => simp at h1
  · intro h1
    unfold jsearchFetchPhase at h1 ⊢
    rw [hj] at h1 ⊢
    simp only [Bool.not_true, Bool.false_eq_true, if_false] at h1 ⊢
    cases hG : getCache now jstore ("jsearch_" ++ jobType ++ "_" ++ loc) with
    | mk o store' =>
      rw [hG] at h1
      cases o with
      | some c => simp
      | none =>
        cases resp with
        | error msg => simp
        | ok d =>
          cases hD : d.data with
          | none => simp [hD]
          | some jobsList =>
            simp only [hD] at h1 ⊢
            by_cases hl : jobsList.length > 0
            · rw [if_pos hl] at h1
              simp at h1
              simp [h1] at hl
            · rw [if_neg hl]

/-- Closed witness for C10: configured adapters, empty cache, a SerpAPI page
with zero results and a JSearch response with no `data` array — the cache is
left untouched. -/
theorem empty_fetch_writes_no_cache_witness :
    (serpFetchPhase id "t" "l"
      { serpApiKey := some "s", jsearchApiKey := some "j" } 0 []
      (fun _ => Except.ok {})).2.2
      = (getCache 0 ([] : List (String × CacheRow (List Posting)))
          ("serpapi_" ++ "t" ++ "_" ++ "l")).2 ∧
    (jsearchFetchPhase id (fun _ => "") "t" "l"
      { serpApiKey := some "s", jsearchApiKey := some "j" } 0 []
      (Except.ok {})).2.2
      = (getCache 0 ([] : List (String × CacheRow (List Posting)))
          ("jsearch_" ++ "t" ++ "_" ++ "l")).2 := by
  have h := empty_fetch_writes_no_cache id id (fun _ => "") "t" "l"
    { serpApiKey := some "s", jsearchApiKey := some "j" } 0 [] []
    (fun _ => Except.ok {}) (Except.ok {}) (by decide) (by decide)
  exact ⟨h.1 (by decide), h.2 (by decide)⟩
